import Mathlib

/-!
Verification of the git-ai repository (AI-powered commit message generator).

The development shallowly embeds the program's core logic:
  * `git_ai/git_utils.py`  — `GitRepo.get_diff_summary`, `GitRepo.get_commit_stats`
  * `git_ai/llm_client.py` — `LLMClient.generate_commit_message` (diff truncation),
    `LLMClient._build_prompt`, `LLMClient.__init__` (provider/credential dispatch)
  * `git_ai/config.py`     — `Config.get` / `Config.api_key`
  * `git_ai/cli.py`        — `config_set` / `config_get` commands and the
    `_interactive_edit` message-session loop together with `commit`'s
    top-level exception handler.

Python strings are modelled as Lean `String`s (sequences of characters,
matching Python's character-indexed `len` and slicing).  Python `str`
operations that the source uses (`split`, `strip`, `in`, `int`, `join`)
are re-implemented below with Python's semantics over `List Char`, so
that all definitions reduce in the kernel.  Mutable process state
(the global `config`) is passed explicitly; external effects (the LLM
provider call, console input) become explicit parameters.
-/

set_option maxRecDepth 100000

/-- Substring containment: `pat` occurs contiguously inside `s`.
Models Python's `pat in s`. -/
def strContains (s pat : String) : Prop := pat.data <:+: s.data

instance (s pat : String) : Decidable (strContains s pat) := by
  unfold strContains; infer_instance

/-- Boolean form of `strContains`, used where the source tests `pat in s`
inside a condition. -/
def strContainsB (s pat : String) : Bool := decide (strContains s pat)

/-- Python `s.split(sep)` for a single-character separator: split on every
occurrence, keeping empty pieces. -/
def pySplit (sep : Char) (s : String) : List String :=
  (s.data.splitOn sep).map (fun l => ⟨l⟩)

/-- Python `s.strip()`: remove leading and trailing whitespace. -/
def pyStrip (s : String) : String :=
  ⟨((s.data.dropWhile Char.isWhitespace).reverse.dropWhile Char.isWhitespace).reverse⟩

/-- Python `s.split()` with no argument: split on whitespace runs and drop
empty pieces. -/
def pySplitWs (s : String) : List String :=
  ((s.data.splitOnP Char.isWhitespace).filter (fun l => l ≠ [])).map (fun l => ⟨l⟩)

/-- Python `int(s)` restricted to the non-negative decimal numerals that occur
in `git diff --shortstat` output; `none` models the `ValueError` raised on a
non-numeric token. -/
def pyInt? (s : String) : Option Nat :=
  let t := (pyStrip s).data
  if t ≠ [] ∧ t.all Char.isDigit then
    some (t.foldl (fun acc c => acc * 10 + (c.toNat - 48)) 0)
  else none

/-- Python truthiness of an optional string (`a or b` falls through on `None`
and on the empty string). -/
def pyOrStr (a b : Option String) : Option String :=
  match a with
  | some s => if s = "" then b else some s
  | none => b

/-- Python `str(...)` rendering of an optional string inside an f-string:
`None` renders as the four characters `None`. -/
def pyStr (o : Option String) : String :=
  match o with
  | some s => s
  | none => "None"

/- ======================= Repository inspector ======================= -/

/-- One entry of the index-vs-HEAD diff as exposed by the git backend to
`GitRepo.get_diff_summary` (git_utils.py:100-116): a change-type code
(`A`, `D`, `M`, `R`, ...) and the pre- and post-image paths. -/
structure DiffEntry where
  change_type : String
  a_path : Option String
  b_path : Option String

/-- One element of `summary["files_changed"]` (git_utils.py:113-116). -/
structure FileChange where
  path : Option String
  type : String

/-- The dictionary returned by `GitRepo.get_diff_summary`
(git_utils.py:102-107). -/
structure DiffSummary where
  files_changed : List FileChange
  additions : Nat
  deletions : Nat
  modifications : Nat

/-- `file_path = item.a_path or item.b_path` (git_utils.py:111). -/
def change_path (item : DiffEntry) : Option String :=
  pyOrStr item.a_path item.b_path

/-- Loop body of `GitRepo.get_diff_summary` (git_utils.py:109-123): append
the entry to `files_changed`, then bump exactly one of the three counters
when the change type is `A`, `D` or `M`. -/
def diff_summary_step (summary : DiffSummary) (item : DiffEntry) : DiffSummary :=
  let summary :=
    { summary with
      files_changed := summary.files_changed ++ [⟨change_path item, item.change_type⟩] }
  if item.change_type == "A" then { summary with additions := summary.additions + 1 }
  else if item.change_type == "D" then { summary with deletions := summary.deletions + 1 }
  else if item.change_type == "M" then
    { summary with modifications := summary.modifications + 1 }
  else summary

/-- `GitRepo.get_diff_summary` (git_utils.py:94-125), as a function of the
backend's diff entries. -/
def get_diff_summary (diff : List DiffEntry) : DiffSummary :=
  diff.foldl diff_summary_step ⟨[], 0, 0, 0⟩

/-- Parsing loop of `GitRepo.get_commit_stats` (git_utils.py:82-90): split the
shortstat line on commas, skip the leading `N files changed` part, and add up
the leading integer of every part mentioning insertions or deletions.  An
empty line yields 0; a malformed numeric token models Python's `ValueError`,
a part with no token at all the `IndexError` of indexing `[0]`. -/
def shortstat_total (diff_text : String) : Except String Nat :=
  if diff_text = "" then Except.ok 0
  else
    ((pySplit ',' diff_text).drop 1).foldlM
      (fun total part =>
        if strContainsB part "insertion" || strContainsB part "deletion" then
          match (pySplitWs (pyStrip part)).head? with
          | some tok =>
            match pyInt? tok with
            | some n => Except.ok (total + n)
            | none => Except.error "ValueError"
          | none => Except.error "IndexError"
        else Except.ok total)
      0

/-- `GitRepo.get_commit_stats` (git_utils.py:71-92): the pair of the number of
diff entries and the line-change total parsed from the shortstat text. -/
def get_commit_stats (diff : List DiffEntry) (diff_text : String) :
    Except String (Nat × Nat) :=
  (shortstat_total diff_text).map (fun total => (diff.length, total))

/- ========================= Prompt builder ========================= -/

/-- A commit record as produced by `GitRepo.get_recent_commits`
(git_utils.py:138-142). -/
structure CommitRecord where
  hash : String
  message : String
  author : String

/-- One line of the file list: `f"- {f['path']} ({f['type']})"`
(llm_client.py:85). -/
def fileLine (f : FileChange) : String :=
  "- " ++ pyStr f.path ++ " (" ++ f.type ++ ")"

/-- One line of the recent-commit block: `f"- {c['hash']}: {c['message']}"`
(llm_client.py:92). -/
def commitLine (c : CommitRecord) : String :=
  "- " ++ c.hash ++ ": " ++ c.message

/-- The `recent_context` block (llm_client.py:89-94): empty for an empty
history, otherwise a fixed header followed by the first three records, one
line each. -/
def recent_context (recent_commits : List CommitRecord) : String :=
  if recent_commits.isEmpty then ""
  else
    "\n\nRecent commits for context:\n"
      ++ String.intercalate "\n" ((recent_commits.take 3).map commitLine)

/-- The `conventional` format guide (llm_client.py:97-115), with the
commit-type vocabulary interpolated. -/
def conventional_format_guide (commit_types : String) : String :=
  "\nFormat: <type>(<scope>): <subject>\n\n<body>\n\n"
    ++ ("Types: " ++ commit_types)
    ++ "\n- Use feat: for new features\n- Use fix: for bug fixes\n- Use docs: for documentation\n- Use refactor: for code refactoring\n- Use test: for test changes\n- Use chore: for maintenance tasks\n\nRules:\n1. Subject line max 50 chars, lowercase, no period\n2. Body wraps at 72 chars\n3. Explain WHAT and WHY, not HOW\n4. Use imperative mood (\"add\" not \"added\")\n"

/-- The `semantic` format guide (llm_client.py:117-125). -/
def semantic_format_guide : String :=
  "\nFormat: <emoji> <type>: <subject>\n\nExamples:\n"
    ++ "✨ feat: add user authentication"
    ++ "\n🐛 fix: resolve memory leak in worker\n📝 docs: update API documentation\n♻️ refactor: simplify database queries\n"

/-- The `simple` format guide (llm_client.py:127-133). -/
def simple_format_guide : String :=
  "\nFormat: <subject>\n\n<body>\n\nKeep it simple and clear. Focus on what changed and why.\n"

/-- Style dispatch of `_build_prompt` (llm_client.py:96-133): `conventional`
and `semantic` are matched explicitly, anything else falls through to the
`simple` guide. -/
def format_guide_for (commitTypes : List String) (style : String) : String :=
  if style = "conventional" then
    conventional_format_guide (String.intercalate ", " commitTypes)
  else if style = "semantic" then semantic_format_guide
  else simple_format_guide

/-- Everything of the prompt f-string (llm_client.py:135-153) before the
opening diff fence. -/
def prompt_head (diff_summary : DiffSummary) (format_guide : String) : String :=
  "Generate a git commit message for the following changes.\n\nFiles changed:\n"
    ++ String.intercalate "\n" (diff_summary.files_changed.map fileLine)
    ++ "\n\nSummary:\n- "
    ++ toString diff_summary.additions
    ++ " file(s) added\n- "
    ++ toString diff_summary.modifications
    ++ " file(s) modified\n- "
    ++ toString diff_summary.deletions
    ++ " file(s) deleted\n\n"
    ++ format_guide
    ++ "\n\nGit diff:\n"

/-- Everything of the prompt f-string (llm_client.py:135-153) after the
closing diff fence. -/
def prompt_suffix (recent_commits : List CommitRecord) : String :=
  "\n"
    ++ recent_context recent_commits
    ++ "\n\nGenerate a clear, concise commit message. Return ONLY the commit message, no explanations."

/-- `LLMClient._build_prompt` (llm_client.py:64-155): the prompt template with
file list, summary counts, format guide, fenced diff block and recent-commit
context interpolated, in the source's order. -/
def build_prompt (commitTypes : List String) (diff : String)
    (diff_summary : DiffSummary) (recent_commits : List CommitRecord)
    (style : String) : String :=
  prompt_head diff_summary (format_guide_for commitTypes style)
    ++ "```\n" ++ diff ++ "\n```"
    ++ prompt_suffix recent_commits

/-- Diff truncation in `LLMClient.generate_commit_message`
(llm_client.py:52-55): over-long diffs are cut to the first `max_length`
characters and `"\n... (diff truncated)"` is appended. -/
def truncated_diff (max_length : Nat) (diff : String) : String :=
  if diff.length > max_length then diff.take max_length ++ "\n... (diff truncated)"
  else diff

/-- The prompt produced by `LLMClient.generate_commit_message`
(llm_client.py:52-57): `_build_prompt` applied to the possibly truncated
diff. -/
def generate_commit_message_prompt (commitTypes : List String) (max_length : Nat)
    (diff : String) (diff_summary : DiffSummary)
    (recent_commits : List CommitRecord) (style : String) : String :=
  build_prompt commitTypes (truncated_diff max_length diff) diff_summary
    recent_commits style

/- ==================== Configuration (config.py, cli.py) ==================== -/

/-- A YAML-like configuration value: the `config_set` command stores strings,
and nested keys produce nested mappings (cli.py:108-116). -/
inductive ConfigValue where
  | str : String → ConfigValue
  | dict : List (String × ConfigValue) → ConfigValue

/-- A Python dict of configuration entries, as an insertion-ordered
association list. -/
abbrev ConfigDict := List (String × ConfigValue)

/-- Python `d.get(k)` on a dict: the value bound to the first (unique)
matching key, else `None`.  `Config.get` (config.py:57-59) is exactly this
flat lookup. -/
def dict_get (d : ConfigDict) (k : String) : Option ConfigValue :=
  match d.find? (fun p => p.1 == k) with
  | some p => some p.2
  | none => none

/-- Python `d[k] = v` on a dict: overwrite in place when the key exists,
append otherwise. -/
def dict_set (d : ConfigDict) (k : String) (v : ConfigValue) : ConfigDict :=
  if (d.find? (fun p => p.1 == k)).isSome then
    d.map (fun p => if p.1 == k then (k, v) else p)
  else d ++ [(k, v)]

/-- The nested-key walk of the `config_set` command (cli.py:109-116):
`current = config.config; for part in parts[:-1]: ...; current[parts[-1]] = value`.
Descending into an existing non-dict value models the `TypeError` Python
raises on the subsequent item assignment. -/
def set_nested (parts : List String) (value : String) (d : ConfigDict) :
    Except String ConfigDict :=
  match parts with
  | [] => Except.ok d
  | [last] => Except.ok (dict_set d last (ConfigValue.str value))
  | part :: rest =>
    let sub :=
      match dict_get d part with
      | some v => v
      | none => ConfigValue.dict []
    match sub with
    | ConfigValue.dict entries =>
      (set_nested rest value entries).map
        (fun entries' => dict_set d part (ConfigValue.dict entries'))
    | ConfigValue.str _ => Except.error "TypeError"

/-- The `config_set` CLI command (cli.py:105-124): dot-path keys are split
and stored as nested dicts, plain keys go through `Config.set` (a flat
assignment). -/
def config_set_cmd (key value : String) (cfg : ConfigDict) :
    Except String ConfigDict :=
  if strContainsB key "." then set_nested (pySplit '.' key) value cfg
  else Except.ok (dict_set cfg key (ConfigValue.str value))

/-- The value printed by the `config_get` CLI command for a given key
(cli.py:131-133): `config.get(key)`, which is the flat
`self.config.get(key, None)` of config.py:57-59 — never a dot-path walk. -/
def config_get_value (cfg : ConfigDict) (key : String) : Option ConfigValue :=
  dict_get cfg key

/- ==================== Provider gateway (llm_client.py) ==================== -/

/-- The credential environment: `ANTHROPIC_API_KEY` and `OPENAI_API_KEY`
as read by `Config.api_key` (config.py:75-82). -/
structure Env where
  anthropic_api_key : Option String
  openai_api_key : Option String

/-- `Config.api_key` (config.py:75-82): the environment variable matching the
current provider, `None` for any other provider. -/
def config_api_key (provider : String) (env : Env) : Option String :=
  if provider = "anthropic" then env.anthropic_api_key
  else if provider = "openai" then env.openai_api_key
  else none

/-- Failures of client construction: a missing credential (carrying the
provider name) or the `ValueError` of llm_client.py:32 for an unknown
provider. -/
inductive ClientError where
  | missingCredential : String → ClientError
  | valueError : String → ClientError

/-- A constructed provider client: provider name, the resolved (non-absent)
API key, and an optional base URL (set only for the local Ollama variant,
llm_client.py:27-30). -/
structure ProviderClient where
  provider : String
  api_key : String
  base_url : Option String

/-- Modelled from the spec: `anthropic.Anthropic(api_key=...)` is external
SDK code, not part of src/.  Per the spec's Provider Gateway contract,
"each remote variant requires an API key sourced from environment state;
absence is a `MissingCredential` failure surfaced before any network call" —
the constructor resolves the passed key (falling back to the environment
variable) and fails without any network interaction when it is absent. -/
def anthropic_client_new (api_key : Option String) (env : Env) :
    Except ClientError ProviderClient :=
  match api_key with
  | some k => Except.ok ⟨"anthropic", k, none⟩
  | none =>
    match env.anthropic_api_key with
    | some k => Except.ok ⟨"anthropic", k, none⟩
    | none => Except.error (ClientError.missingCredential "anthropic")

/-- Modelled from the spec: `openai.OpenAI(api_key=..., base_url=...)` is
external SDK code, not part of src/.  As for the Anthropic variant, a
missing key is a `MissingCredential` failure surfaced at construction,
before any network call. -/
def openai_client_new (api_key : Option String) (env : Env)
    (base_url : Option String) : Except ClientError ProviderClient :=
  match api_key with
  | some k => Except.ok ⟨"openai", k, base_url⟩
  | none =>
    match env.openai_api_key with
    | some k => Except.ok ⟨"openai", k, base_url⟩
    | none => Except.error (ClientError.missingCredential "openai")

/-- `LLMClient.__init__` (llm_client.py:12-32): dispatch on the provider
name; remote variants receive `config.api_key`, the Ollama variant a dummy
key and the fixed local base URL.  A completion request needs the
`ProviderClient` this returns, so a `missingCredential` error here occurs
before any network call can be made. -/
def llm_client_init (provider : String) (env : Env) :
    Except ClientError ProviderClient :=
  if provider = "anthropic" then
    anthropic_client_new (config_api_key provider env) env
  else if provider = "openai" then
    openai_client_new (config_api_key provider env) env none
  else if provider = "ollama" then
    openai_client_new (some "ollama") env (some "http://localhost:11434/v1")
  else Except.error (ClientError.valueError ("Unsupported provider: " ++ provider))

/- =============== Interactive message session (cli.py) =============== -/

/-- The slice of the process-wide `config` the session loop touches:
the sampling temperature (a float in the source, modelled as a rational). -/
structure SessionConfig where
  temperature : ℚ

/-- The Regenerate branch of `_interactive_edit` (cli.py:231-240): read the
original temperature, set `min(original + 0.2, 1.0)`, perform the action's
body (which only prints a "coming soon" notice — no provider call is made),
and set the original value back.  Returns the temperature in effect during
the body together with the configuration after the action. -/
def regenerate_action (cfg : SessionConfig) : ℚ × SessionConfig :=
  let original_temp := cfg.temperature
  let cfg := { cfg with temperature := min (original_temp + 2/10) 1 }
  let effective := cfg.temperature
  (effective, { cfg with temperature := original_temp })

/-- State carried across iterations of the `_interactive_edit` loop
(cli.py:215-261): the current message and the process-wide config. -/
structure SessionState where
  current_message : String
  cfg : SessionConfig

/-- One user decision at the options menu (cli.py:227), together with the
external inputs that decision consumes: the lines typed for Edit, and the
provider's reply (or raised error) for Feedback. -/
inductive UserAction where
  | accept : UserAction
  | regenerate : UserAction
  | edit : List String → UserAction
  | feedback : String → Except String String → UserAction
  | cancel : UserAction

/-- Outcome of one loop iteration: continue with an updated state, return
the accepted message, exit 0 (Cancel), or exit 1 (an exception that escaped
to `commit`'s handler, cli.py:86-88, which prints the error and calls
`sys.exit(1)`). -/
inductive StepResult where
  | next : SessionState → StepResult
  | committed : String → StepResult
  | exitZero : StepResult
  | exitOne : String → StepResult

/-- One iteration of the `_interactive_edit` loop (cli.py:219-259).
Accept returns `current_message`; Regenerate perturbs and restores the
temperature; Edit replaces the message with the entered lines joined by
newlines (cli.py:243-249, `"\n".join(lines)`); Feedback replaces the message
with the provider's reply, but a provider exception propagates out of
`_interactive_edit` into `commit`'s generic handler; Cancel calls
`sys.exit(0)`. -/
def interactiveStep (s : SessionState) : UserAction → StepResult
  | UserAction.accept => StepResult.committed s.current_message
  | UserAction.regenerate =>
    StepResult.next ⟨s.current_message, (regenerate_action s.cfg).2⟩
  | UserAction.edit lines =>
    StepResult.next ⟨String.intercalate "\n" lines, s.cfg⟩
  | UserAction.feedback _ result =>
    match result with
    | Except.ok m => StepResult.next ⟨m, s.cfg⟩
    | Except.error e => StepResult.exitOne e
  | UserAction.cancel => StepResult.exitZero

/-- The session loop run on a list of user decisions: iterate until a
terminal result. -/
def runSession (s : SessionState) : List UserAction → StepResult
  | [] => StepResult.next s
  | a :: rest =>
    match interactiveStep s a with
    | StepResult.next s' => runSession s' rest
    | r => r

/- ==================== Substring-containment lemmas ==================== -/

/-- Every string occurs in itself. -/
theorem strContains_self (m : String) : strContains m m :=
  ⟨[], [], by simp⟩

/-- Containment is preserved by appending on the right. -/
theorem strContains_append_left {s m : String} (t : String)
    (h : strContains s m) : strContains (s ++ t) m := by
  obtain ⟨u, v, huv⟩ := h
  exact ⟨u, v ++ t.data, by rw [String.data_append, ← huv]; simp⟩

/-- Containment is preserved by appending on the left. -/
theorem strContains_append_right (s : String) {t m : String}
    (h : strContains t m) : strContains (s ++ t) m := by
  obtain ⟨u, v, huv⟩ := h
  exact ⟨s.data ++ u, v, by rw [String.data_append, ← huv]; simp⟩

/-- The middle part of a three-way concatenation is contained in it. -/
theorem strContains_mid (X m Y : String) : strContains (X ++ m ++ Y) m :=
  ⟨X.data, Y.data, by simp [String.data_append]⟩

/-- The fenced middle of a five-way concatenation is contained in it. -/
theorem strContains_fenced (pp a d b ps : String) :
    strContains (pp ++ a ++ d ++ b ++ ps) (a ++ d ++ b) :=
  ⟨pp.data, ps.data, by simp [String.data_append]⟩

/- ============================ Claim C1 ============================ -/

/-- Claim C1 (counterexample): with `max_diff_length = 1` and the diff `ab`
(length 2 > 1), the generated prompt does NOT contain the first
`max_diff_length` characters immediately followed by the literal marker
`... (diff truncated)` — the source inserts a newline between them
(llm_client.py:55 appends `"\n... (diff truncated)"`). -/
theorem truncation_marker_not_adjacent :
    ("ab" : String).length > 1
      ∧ ¬ strContains
          (generate_commit_message_prompt [] 1 "ab" ⟨[], 0, 0, 0⟩ [] "simple")
          ("ab".take 1 ++ "... (diff truncated)") := by
  constructor
  · decide
  · decide

/-- Claim C1 (amended): the prompt is built from the truncated diff alone,
that truncated diff appears verbatim inside the fenced block, and for an
over-long diff it is exactly the first `max_diff_length` characters followed
by a newline and then the literal marker `... (diff truncated)`. -/
theorem truncated_diff_in_fenced_block (commitTypes : List String)
    (max_length : Nat) (diff : String) (diff_summary : DiffSummary)
    (recent_commits : List CommitRecord) (style : String) :
    generate_commit_message_prompt commitTypes max_length diff diff_summary
        recent_commits style
      = build_prompt commitTypes (truncated_diff max_length diff) diff_summary
          recent_commits style
    ∧ strContains
        (generate_commit_message_prompt commitTypes max_length diff diff_summary
          recent_commits style)
        ("```\n" ++ truncated_diff max_length diff ++ "\n```")
    ∧ truncated_diff max_length diff
      = (if diff.length > max_length then
          diff.take max_length ++ "\n... (diff truncated)"
        else diff) := by
  refine ⟨rfl, ?_, rfl⟩
  show strContains
    (build_prompt commitTypes (truncated_diff max_length diff) diff_summary
      recent_commits style) _
  unfold build_prompt
  exact strContains_fenced _ _ _ _ _

/- ============================ Claim C7 ============================ -/

/-- Claim C7: the prompt contains the recent-commit context block; the block
is empty exactly when the history is empty, and otherwise consists of the
fixed header followed by the at most 3 most recent records, each rendered as
a `- hash: message` line. -/
theorem recent_commits_block_iff_nonempty (commitTypes : List String)
    (diff : String) (diff_summary : DiffSummary)
    (recent_commits : List CommitRecord) (style : String) :
    strContains (build_prompt commitTypes diff diff_summary recent_commits style)
        (recent_context recent_commits)
    ∧ (recent_context recent_commits = "" ↔ recent_commits = [])
    ∧ recent_context recent_commits
      = (if recent_commits.isEmpty then ""
        else
          "\n\nRecent commits for context:\n"
            ++ String.intercalate "\n" ((recent_commits.take 3).map commitLine))
    ∧ (recent_commits.take 3).length ≤ 3 := by
  refine ⟨?_, ?_, rfl, ?_⟩
  · unfold build_prompt prompt_suffix
    exact strContains_append_right _
      (strContains_append_left _
        (strContains_append_right _ (strContains_self _)))
  · cases recent_commits with
    | nil => simp [recent_context]
    | cons c cs =>
      simp only [recent_context, List.isEmpty_cons, if_neg, Bool.false_eq_true,
        not_false_iff, if_false]
      constructor
      · intro h
        have hlen := congrArg String.length h
        rw [String.length_append] at hlen
        have h30 : (0 : Nat) < ("\n\nRecent commits for context:\n" : String).length := by
          decide
        rw [show ("" : String).length = 0 from rfl] at hlen
        omega
      · intro h
        exact absurd h (List.cons_ne_nil c cs)
  · rw [List.length_take]
    omega

/- ============================ Claim C8 ============================ -/

/-- Claim C8: the conventional prompt contains the commit-type list joined by
a comma and space after the literal `Types: ` label (so with types
`feat, fix` it contains the substring `Types: feat, fix`); the semantic
prompt contains an emoji example line; and the simple style's template
section — which appears verbatim in the simple prompt — contains neither the
`Types:` vocabulary label nor any of the emoji used by the semantic
template. -/
theorem style_template_markers (commitTypes : List String) (diff : String)
    (diff_summary : DiffSummary) (recent_commits : List CommitRecord) :
    strContains
        (build_prompt commitTypes diff diff_summary recent_commits "conventional")
        ("Types: " ++ String.intercalate ", " commitTypes)
    ∧ strContains
        (build_prompt commitTypes diff diff_summary recent_commits "semantic")
        "✨ feat: add user authentication"
    ∧ strContains
        (build_prompt commitTypes diff diff_summary recent_commits "simple")
        simple_format_guide
    ∧ ¬ strContains simple_format_guide "Types:"
    ∧ simple_format_guide.data.all
        (fun c => !(['✨', '🐛', '📝', '♻'].contains c)) = true := by
  have lift_guide :
      ∀ (g m : String) (s : DiffSummary), strContains g m →
        strContains (prompt_head s g) m := by
    intro g m s h
    unfold prompt_head
    exact strContains_append_left _ (strContains_append_right _ h)
  have lift_prompt :
      ∀ (ct : List String) (d : String) (s : DiffSummary)
        (r : List CommitRecord) (st m : String),
        strContains (format_guide_for ct st) m →
        strContains (build_prompt ct d s r st) m := by
    intro ct d s r st m h
    unfold build_prompt
    exact strContains_append_left _
      (strContains_append_left _
        (strContains_append_left _
          (strContains_append_left _ (lift_guide _ _ _ h))))
  refine ⟨?_, ?_, ?_, by decide, by decide⟩
  · apply lift_prompt
    show strContains
      (conventional_format_guide (String.intercalate ", " commitTypes)) _
    unfold conventional_format_guide
    exact strContains_mid _ _ _
  · apply lift_prompt
    show strContains semantic_format_guide _
    unfold semantic_format_guide
    exact strContains_mid _ _ _
  · apply lift_prompt
    exact strContains_self _

/- ============================ Claim C2 ============================ -/

/-- Claim C2 (counterexample): a single staged rename produces a diff entry
with change type `R`, which `get_diff_summary` appends to `files_changed`
without incrementing any of the three counters (git_utils.py:118-123 handle
only `A`, `D`, `M`), so `additions + deletions + modifications` is 0 while
`files_changed` has one element. -/
theorem renamed_entry_breaks_count_invariant :
    ¬ ((get_diff_summary [⟨"R", some "old.txt", some "new.txt"⟩]).additions
        + (get_diff_summary [⟨"R", some "old.txt", some "new.txt"⟩]).deletions
        + (get_diff_summary [⟨"R", some "old.txt", some "new.txt"⟩]).modifications
      = (get_diff_summary
          [⟨"R", some "old.txt", some "new.txt"⟩]).files_changed.length) := by
  decide

/-- Claim C2 (amended): every entry of the backend diff is appended to
`files_changed`, and `additions + deletions + modifications` equals the
number of entries classified `A`, `D` or `M` — which is `len(files_changed)`
exactly when no entry has another classification (such as Renamed). -/
theorem diff_summary_counts_classified_entries (entries : List DiffEntry) :
    (get_diff_summary entries).additions + (get_diff_summary entries).deletions
        + (get_diff_summary entries).modifications
      = (entries.filter
          (fun i => i.change_type == "A" || i.change_type == "D"
            || i.change_type == "M")).length
    ∧ (get_diff_summary entries).files_changed.length = entries.length := by
  have main :
      ∀ (l : List DiffEntry) (acc : DiffSummary),
        ((l.foldl diff_summary_step acc).additions
            + (l.foldl diff_summary_step acc).deletions
            + (l.foldl diff_summary_step acc).modifications
          = acc.additions + acc.deletions + acc.modifications
            + (l.filter
                (fun i => i.change_type == "A" || i.change_type == "D"
                  || i.change_type == "M")).length)
        ∧ (l.foldl diff_summary_step acc).files_changed.length
          = acc.files_changed.length + l.length := by
    intro l
    induction l with
    | nil => intro acc; simp
    | cons e es ih =>
      intro acc
      rw [List.foldl_cons, List.filter_cons, List.length_cons]
      obtain ⟨ih1, ih2⟩ := ih (diff_summary_step acc e)
      have hstep :
          (diff_summary_step acc e).additions + (diff_summary_step acc e).deletions
              + (diff_summary_step acc e).modifications
            = acc.additions + acc.deletions + acc.modifications
              + (if e.change_type == "A" || e.change_type == "D"
                  || e.change_type == "M" then 1 else 0)
          ∧ (diff_summary_step acc e).files_changed.length
            = acc.files_changed.length + 1 := by
        unfold diff_summary_step
        cases hA : e.change_type == "A" with
        | true => simp [hA]; omega
        | false =>
          cases hD : e.change_type == "D" with
          | true => simp [hA, hD]; omega
          | false =>
            cases hM : e.change_type == "M" with
            | true => simp [hA, hD, hM]; omega
            | false => simp [hA, hD, hM]
      constructor
      · rw [ih1, hstep.1]
        cases hc : e.change_type == "A" || e.change_type == "D"
            || e.change_type == "M" with
        | true => simp [hc]; omega
        | false => simp [hc]
      · rw [ih2, hstep.2]
        omega
  have h := main entries ⟨[], 0, 0, 0⟩
  unfold get_diff_summary
  constructor
  · rw [h.1]; simp
  · rw [h.2]; simp

/- ============================ Claim C3 ============================ -/

/-- Claim C3: the Regenerate action leaves the process-wide temperature at
the value it held before the action (the source restores it unconditionally
in straight-line code — no provider call is embedded, cli.py:237-238 only
print a notice), and the temperature in effect during the action's body is
`min(original + 0.2, 1.0)`. -/
theorem regenerate_restores_temperature (s : SessionState) :
    (regenerate_action s.cfg).2.temperature = s.cfg.temperature
    ∧ (regenerate_action s.cfg).1 = min (s.cfg.temperature + 2/10) 1
    ∧ interactiveStep s UserAction.regenerate
      = StepResult.next ⟨s.current_message, ⟨s.cfg.temperature⟩⟩ :=
  ⟨rfl, rfl, rfl⟩

/- ============================ Claim C4 ============================ -/

/-- Claim C4 (counterexample): a provider error raised inside the Feedback
action does not return control to the options menu — the exception escapes
`_interactive_edit` (cli.py:252-257 has no handler) into `commit`'s generic
`except Exception` (cli.py:86-88), which terminates the process with exit
status 1. -/
theorem feedback_provider_error_exits_process :
    interactiveStep ⟨"initial message", ⟨0⟩⟩
        (UserAction.feedback "shorter" (Except.error "ProviderError"))
      = StepResult.exitOne "ProviderError"
    ∧ StepResult.exitOne "ProviderError"
      ≠ StepResult.next ⟨"initial message", ⟨0⟩⟩ :=
  ⟨rfl, by simp⟩

/-- Claim C4 (amended): on a provider failure during Feedback the session's
`current_message` is never overwritten (the exception aborts the iteration
before the assignment), but the error propagates to the top-level handler,
which surfaces it and exits the process with status 1; the session does not
return to the decision point, and any further queued user actions are
ignored. -/
theorem feedback_provider_error_keeps_message_and_exits (s : SessionState)
    (fb e : String) (rest : List UserAction) :
    interactiveStep s (UserAction.feedback fb (Except.error e))
      = StepResult.exitOne e
    ∧ runSession s (UserAction.feedback fb (Except.error e) :: rest)
      = StepResult.exitOne e :=
  ⟨rfl, rfl⟩

/- ============================ Claim C10 ============================ -/

/-- Claim C10: the Edit action replaces the message with exactly the entered
lines joined by newlines, with no validation; entering no lines before
end-of-input makes the message empty, the loop returns to the decision
point, and Accept then commits the empty message. -/
theorem edit_action_joins_lines_verbatim (s : SessionState)
    (lines : List String) :
    interactiveStep s (UserAction.edit lines)
      = StepResult.next ⟨String.intercalate "\n" lines, s.cfg⟩
    ∧ runSession s [UserAction.edit [], UserAction.accept]
      = StepResult.committed "" :=
  ⟨rfl, rfl⟩

/- ============================ Claim C5 ============================ -/

/-- Claim C5: for each remote provider, when the corresponding API-key
environment variable is absent, client construction fails with a
`missingCredential` error for that provider — a completion request needs the
`ProviderClient` that construction would have returned, so the failure
occurs before any network call and is not a network-layer failure. -/
theorem missing_api_key_yields_missing_credential (env : Env) :
    (env.anthropic_api_key = none →
      llm_client_init "anthropic" env
        = Except.error (ClientError.missingCredential "anthropic"))
    ∧ (env.openai_api_key = none →
      llm_client_init "openai" env
        = Except.error (ClientError.missingCredential "openai")) := by
  obtain ⟨akey, okey⟩ := env
  constructor
  · intro h
    cases h
    rfl
  · intro h
    cases h
    rfl

/-- Witness for claim C5: with both environment variables absent, each remote
variant's construction yields its `missingCredential` failure. -/
theorem missing_api_key_yields_missing_credential_witness :
    llm_client_init "anthropic" ⟨none, none⟩
      = Except.error (ClientError.missingCredential "anthropic")
    ∧ llm_client_init "openai" ⟨none, none⟩
      = Except.error (ClientError.missingCredential "openai") :=
  ⟨(missing_api_key_yields_missing_credential ⟨none, none⟩).1 rfl,
    (missing_api_key_yields_missing_credential ⟨none, none⟩).2 rfl⟩

/- ============================ Claim C9 ============================ -/

/-- Claim C9: `get_commit_stats` pairs the number of diff entries with the
sum of the insertion and deletion counts parsed from the shortstat line, and
an empty (absent) shortstat line yields 0 rather than a failure. -/
theorem commit_stats_parses_shortstat (entries : List DiffEntry) :
    get_commit_stats entries "" = Except.ok (entries.length, 0)
    ∧ get_commit_stats entries
        " 2 files changed, 10 insertions(+), 3 deletions(-)"
      = Except.ok (entries.length, 13)
    ∧ get_commit_stats entries " 1 file changed, 7 insertions(+)"
      = Except.ok (entries.length, 7)
    ∧ get_commit_stats entries " 1 file changed, 4 deletions(-)"
      = Except.ok (entries.length, 4) :=
  ⟨rfl, rfl, rfl, rfl⟩

/- ============================ Claim C6 ============================ -/

/-- Lookup in a concatenation of dicts: the first dict wins. -/
theorem dict_get_append (d₁ d₂ : ConfigDict) (k : String) :
    dict_get (d₁ ++ d₂) k
      = match dict_get d₁ k with
        | some v => some v
        | none => dict_get d₂ k := by
  induction d₁ with
  | nil => simp [dict_get]
  | cons p ps ih =>
    unfold dict_get at *
    rw [List.cons_append, List.find?_cons, List.find?_cons]
    cases hp : p.1 == k with
    | true => simp
    | false => simpa using ih

/-- Claim C6 (counterexample): `config-set a.b v` on an empty configuration
stores the nested mapping, but `config-get a.b` performs the flat
`self.config.get("a.b", None)` of config.py:57-59 and returns `None`, not
`v`. -/
theorem dot_path_get_returns_none :
    config_set_cmd "a.b" "v" []
      = Except.ok [("a", ConfigValue.dict [("b", ConfigValue.str "v")])]
    ∧ config_get_value [("a", ConfigValue.dict [("b", ConfigValue.str "v")])] "a.b"
      = none
    ∧ (none : Option ConfigValue) ≠ some (ConfigValue.str "v") :=
  ⟨rfl, rfl, by simp⟩

/-- Claim C6 (amended): for a fresh two-component dot-path key, `config-set`
stores the value as a nested mapping (`a` maps to a dict binding `b` to the
value), but `config-get` with the same dot-path key performs a flat
top-level lookup of the literal key and yields `None` — only the set
direction is dot-path addressed. -/
theorem dot_path_set_nested_get_flat (key a b value : String) (cfg : ConfigDict)
    (h1 : strContainsB key "." = true)
    (h2 : pySplit '.' key = [a, b])
    (h3 : dict_get cfg a = none)
    (h4 : dict_get cfg key = none)
    (h5 : (a == key) = false) :
    config_set_cmd key value cfg
      = Except.ok (cfg ++ [(a, ConfigValue.dict [(b, ConfigValue.str value)])])
    ∧ dict_get (cfg ++ [(a, ConfigValue.dict [(b, ConfigValue.str value)])]) a
      = some (ConfigValue.dict [(b, ConfigValue.str value)])
    ∧ config_get_value
        (cfg ++ [(a, ConfigValue.dict [(b, ConfigValue.str value)])]) key
      = none := by
  have hf3 : List.find? (fun p => p.1 == a) cfg = none := by
    unfold dict_get at h3
    cases hf : List.find? (fun p => p.1 == a) cfg with
    | none => rfl
    | some p => rw [hf] at h3; exact Option.noConfusion h3
  refine ⟨?_, ?_, ?_⟩
  · unfold config_set_cmd
    rw [h1]
    simp only [if_true]
    rw [h2]
    unfold set_nested
    rw [h3]
    unfold set_nested
    simp [dict_set, hf3]
    rfl
  · rw [dict_get_append, h3]
    simp [dict_get, List.find?]
  · unfold config_get_value
    rw [dict_get_append, h4]
    simp [dict_get, List.find?, h5]

/-- Witness for claim C6 (amended): the concrete key `a.b` with value `v` on
the empty configuration. -/
theorem dot_path_set_nested_get_flat_witness :
    config_set_cmd "a.b" "v" []
      = Except.ok ([] ++ [("a", ConfigValue.dict [("b", ConfigValue.str "v")])])
    ∧ dict_get ([] ++ [("a", ConfigValue.dict [("b", ConfigValue.str "v")])]) "a"
      = some (ConfigValue.dict [("b", ConfigValue.str "v")])
    ∧ config_get_value ([] ++ [("a", ConfigValue.dict [("b", ConfigValue.str "v")])]) "a.b"
      = none :=
  dot_path_set_nested_get_flat "a.b" "a" "b" "v" []
    (by decide) (by decide) rfl rfl (by decide)
